import Mathlib

/-!
Verification of `init/devices.cpp` (Android device manager).

Strings from the C code are embedded as `List Char` (`CStr`); the NUL
terminator is implicit in the list end.  External libc/collaborator
functions (fnmatch, insmod_by_dep) are taken as parameters of the
definitions that call them, mirroring the call sites.
-/

namespace Devices

/-- A C string: the characters before the NUL terminator. -/
abbrev CStr := List Char

/-- C `isspace` on the characters `atoi` skips. -/
def cIsSpace (c : Char) : Bool :=
  c == ' ' || c == '\t' || c == '\n' || c == '\x0b' || c == '\x0c' || c == '\r'

/-- Digit-accumulating loop of C `atoi`: consume the longest digit run. -/
def atoiLoop (acc : Nat) : CStr → Nat
  | [] => acc
  | c :: r => if c.isDigit then atoiLoop (acc * 10 + (c.toNat - '0'.toNat)) r else acc

/-- C `atoi`: skip whitespace, optional sign, then the digit run (0 if none). -/
def atoi (s : CStr) : Int :=
  match s.dropWhile cIsSpace with
  | '-' :: r => -(atoiLoop 0 r : Int)
  | '+' :: r => (atoiLoop 0 r : Int)
  | r => (atoiLoop 0 r : Int)

/-- The suffix of `s` strictly after the last `'/'` (C `strrchr(s,'/') + 1`);
`none` when `s` holds no `'/'` (C `strrchr` returning NULL). -/
def strrchrTail (s : CStr) : Option CStr :=
  if s.contains '/' then some ((s.reverse.takeWhile (fun c => !(c == '/'))).reverse)
  else none

/-! ### Permission rules (`struct perms_`, dev_perms list) -/

/-- A dev-node permission rule (`struct perms_` without the sysfs `attr`).
The C field `prefix` is called `pfx` here. -/
structure Perms where
  name : CStr
  perm : Nat
  uid : Nat
  gid : Nat
  pfx : Bool
  wildcard : Bool
deriving DecidableEq, Repr

/-- `perm_path_matches`: exact / prefix / glob matching of a path against a
rule.  `fnm` stands for libc `fnmatch(dp.name, path, FNM_PATHNAME) == 0`. -/
def perm_path_matches (fnm : CStr → CStr → Bool) (path : CStr) (dp : Perms) : Bool :=
  if dp.pfx then dp.name.isPrefixOf path
  else if dp.wildcard then fnm dp.name path
  else path == dp.name

/-- The match test `get_device_perm` applies to one rule: the primary path
first, then (on failure) each alternate link if links were supplied. -/
def permMatchesAny (fnm : CStr → CStr → Bool) (path : CStr) (links : Option (List CStr))
    (dp : Perms) : Bool :=
  perm_path_matches fnm path dp ||
    (match links with
     | none => false
     | some ls => ls.any (fun l => perm_path_matches fnm l dp))

/-- The reverse-order scan loop of `get_device_perm` over an explicit rule
list (head = first rule tried). -/
def gdpLoop (fnm : CStr → CStr → Bool) (path : CStr) (links : Option (List CStr)) :
    List Perms → Nat × Nat × Nat
  | [] => (0, 0, 0o600)
  | dp :: rest =>
    if permMatchesAny fnm path links dp then (dp.uid, dp.gid, dp.perm)
    else gdpLoop fnm path links rest

/-- `get_device_perm`: scan `dev_perms` (given in insertion order) in reverse,
returning `(uid, gid, mode)` of the first matching rule, else the default
`(0, 0, 0o600)`. -/
def get_device_perm (fnm : CStr → CStr → Bool) (dev_perms : List Perms) (path : CStr)
    (links : Option (List CStr)) : Nat × Nat × Nat :=
  gdpLoop fnm path links dev_perms.reverse

/-! ### PCI prefix extraction (`find_pci_device_prefix`) -/

/-- `find_pci_device_prefix`: for a devpath starting `/devices/pci`, the
substring from offset 9 up to (excluding) the second `'/'` at or after that
offset, provided it fits the supplied buffer (`buf_sz` bytes including the
NUL).  `none` models the C function returning -1. -/
def find_pci_device_prefix (path : CStr) (buf_sz : Int) : Option CStr :=
  if "/devices/pci".data.isPrefixOf path then
    let start := path.drop 9
    match start.findIdx? (fun c => c == '/') with
    | none => none
    | some i =>
      match (start.drop (i + 1)).findIdx? (fun c => c == '/') with
      | none => none
      | some j =>
        if ((i + 1 + j : Nat) : Int) + 1 > buf_sz then none
        else some (start.take (i + 1 + j))
  else none

/-- Indices of every `'/'` in a string, in increasing order (spec-side
helper used to phrase "the n-th `/` after the offset"). -/
def slashIdxs : CStr → List Nat
  | [] => []
  | c :: r => (if c = '/' then [0] else []) ++ (slashIdxs r).map (· + 1)

/-- The claim's reading of the PCI prefix: the substring of the devpath
starting at offset 9 and ending before the *third* `'/'` after that offset. -/
def pciClaimThird (path : CStr) : Option CStr :=
  ((slashIdxs (path.drop 9))[2]?).map (fun j => (path.drop 9).take j)

/-- The amended reading: substring from offset 9 up to the *second* `'/'`
at or after that offset, when it fits the buffer. -/
def pciClaimSecond (path : CStr) (buf_sz : Int) : Option CStr :=
  if "/devices/pci".data.isPrefixOf path then
    ((slashIdxs (path.drop 9))[1]?).bind (fun j =>
      if ((j : Nat) : Int) + 1 > buf_sz then none else some ((path.drop 9).take j))
  else none

/-! ### Uevents (`struct uevent`) -/

/-- `struct uevent`.  Pointer fields are `Option CStr` (`none` = NULL);
numeric fields are C ints. -/
structure Uevent where
  action : Option CStr
  path : Option CStr
  subsystem : Option CStr
  firmware : Option CStr
  partition_name : Option CStr
  device_name : Option CStr
  modalias : Option CStr
  partition_num : Int
  major : Int
  minor : Int
deriving DecidableEq, Repr

/-- The field initialisation at the top of `parse_event`. -/
def uevInit : Uevent :=
  { action := some [], path := some [], subsystem := some [], firmware := some [],
    partition_name := none, device_name := none, modalias := none,
    partition_num := -1, major := -1, minor := -1 }

/-! ### Platform device registry (`struct platform_node`, platform_names) -/

/-- `struct platform_node`: the stored devpath and the derived short name. -/
structure platform_node where
  name : CStr
  path : CStr
deriving DecidableEq, Repr

/-- `add_platform_device`: append an entry whose name strips a leading
`/devices/` and then a further `platform/` from the devpath. -/
def add_platform_device (path : CStr) (platform_names : List platform_node) :
    List platform_node :=
  let name :=
    if "/devices/".data.isPrefixOf path then
      let n1 := path.drop 9
      if "platform/".data.isPrefixOf n1 then n1.drop 9 else n1
    else path
  platform_names ++ [{ name := name, path := path }]

/-- `remove_platform_device`: reverse scan, drop the first entry whose path
equals the argument (i.e. the most recently added match). -/
def remove_platform_device (path : CStr) (platform_names : List platform_node) :
    List platform_node :=
  ((platform_names.reverse).eraseP (fun bus => bus.path == path)).reverse

/-- `find_platform_device`: newest entry whose path is a strict directory
prefix of the argument (next byte must be `'/'`). -/
def find_platform_device (platform_names : List platform_node) (path : CStr) :
    Option platform_node :=
  platform_names.reverse.find? (fun bus =>
    decide (bus.path.length < path.length) && (path[bus.path.length]? == some '/') &&
      bus.path.isPrefixOf path)

/-- `handle_platform_device_event`: dispatch a platform-subsystem uevent on
its action. -/
def handle_platform_device_event (u : Uevent) (st : List platform_node) :
    List platform_node :=
  if u.action.getD [] == "add".data then add_platform_device (u.path.getD []) st
  else if u.action.getD [] == "remove".data then remove_platform_device (u.path.getD []) st
  else st

/-- Run a sequence of platform uevents against the registry. -/
def runPlatformEvents (st : List platform_node) : List Uevent → List platform_node
  | [] => st
  | u :: evs => runPlatformEvents (handle_platform_device_event u st) evs

/-- Every `add` event in the sequence carries a devpath not currently in the
registry (the hypothesis the amended C4 needs). -/
def freshAdds : List platform_node → List Uevent → Bool
  | _, [] => true
  | st, u :: evs =>
    (if u.action.getD [] == "add".data then
      st.all (fun bus => !(bus.path == u.path.getD []))
     else true)
      && freshAdds (handle_platform_device_event u st) evs

/-- A platform `add` uevent for `/devices/platform/foo`. -/
def uevAddFoo : Uevent :=
  { uevInit with action := some "add".data, subsystem := some "platform".data,
                 path := some "/devices/platform/foo".data }

/-- A platform `remove` uevent for `/devices/platform/foo`. -/
def uevRemoveFoo : Uevent :=
  { uevAddFoo with action := some "remove".data }

/-! ### Block device symlinks (`get_block_device_symlinks`) -/

/-- Modelled from the spec: `sanitize` (defined in init/util.c, which is not
under src/) replaces every byte outside `[A-Za-z0-9._-]` with `'_'`. -/
def sanitize (s : CStr) : CStr :=
  s.map (fun c =>
    if ('a' ≤ c ∧ c ≤ 'z') ∨ ('A' ≤ c ∧ c ≤ 'Z') ∨ ('0' ≤ c ∧ c ≤ '9') ∨
        c = '.' ∨ c = '_' ∨ c = '-' then c else '_')

/-- The `snprintf(link_path, sizeof(link_path), "/dev/block/%s/%s", ...)`
result: the 256-byte buffer keeps at most 255 characters. -/
def linkPathOf (ty device : CStr) : CStr :=
  ("/dev/block/".data ++ ty ++ '/' :: device).take 255

/-- The link list `get_block_device_symlinks` builds from a computed
`link_path` (asprintf allocations assumed to succeed): by-name link when a
partition name is present, by-num link when the partition number is
non-negative, then always the devpath-leaf link. -/
def blockLinksFrom (link_path upath : CStr) (pname : Option CStr) (pnum : Int) :
    List CStr :=
  (match pname with
   | some p => [link_path ++ "/by-name/".data ++ sanitize p]
   | none => []) ++
  (if 0 ≤ pnum then [link_path ++ "/by-num/p".data ++ (Nat.repr pnum.toNat).data]
   else []) ++
  [link_path ++ '/' :: (strrchrTail upath).getD []]

/-- `get_block_device_symlinks`: platform parent first (type `platform`,
device = entry name), else PCI prefix (type `pci`), else no links. -/
def get_block_device_symlinks (platform_names : List platform_node) (u : Uevent) :
    Option (List CStr) :=
  match find_platform_device platform_names (u.path.getD []) with
  | some pdev =>
    some (blockLinksFrom (linkPathOf "platform".data pdev.name) (u.path.getD [])
      u.partition_name u.partition_num)
  | none =>
    match find_pci_device_prefix (u.path.getD []) 256 with
    | some buf =>
      some (blockLinksFrom (linkPathOf "pci".data buf) (u.path.getD [])
        u.partition_name u.partition_num)
    | none => none

/-- The symlink list exactly as claim C5 words it, with the base directory
`/dev/block/<type>/<device>` written out in full (no buffer truncation). -/
def claimBlockLinks (ty device upath : CStr) (pname : Option CStr) (pnum : Int) :
    List CStr :=
  (match pname with
   | some p =>
     ["/dev/block/".data ++ ty ++ '/' :: device ++ "/by-name/".data ++ sanitize p]
   | none => []) ++
  (if 0 ≤ pnum then
    ["/dev/block/".data ++ ty ++ '/' :: device ++ "/by-num/p".data ++
      (Nat.repr pnum.toNat).data]
   else []) ++
  ["/dev/block/".data ++ ty ++ '/' :: device ++ '/' :: (strrchrTail upath).getD []]

/-- 240 letters `a`: a platform device name long enough to overflow the
256-byte `link_path` buffer. -/
def longAs : CStr := List.replicate 240 'a'

/-- Registry holding the long-named platform device. -/
def regLong : List platform_node :=
  add_platform_device ("/devices/platform/".data ++ longAs) []

/-- A block `add` uevent under the long-named platform device. -/
def uevBlockLong : Uevent :=
  { uevInit with action := some "add".data, subsystem := some "block".data,
                 path := some ("/devices/platform/".data ++ longAs ++ "/mmcblk0".data),
                 major := 179, minor := 0 }

/-- Registry for the spec's scenario 1 (`soc.0`). -/
def regSoc : List platform_node :=
  add_platform_device "/devices/platform/soc.0".data []

/-- The block `add` uevent of the spec's scenario 1. -/
def uevBlockSoc : Uevent :=
  { uevInit with action := some "add".data, subsystem := some "block".data,
                 path := some "/devices/platform/soc.0/by.pci/mmcblk0p3".data,
                 major := 179, minor := 3, partition_num := 3,
                 partition_name := some "system".data }

/-! ### Module alias engine (`is_module_blacklisted_or_deferred`,
`load_module_by_device_modalias`, `handle_module_loading`) -/

/-- `struct module_alias_node`. -/
structure module_alias_node where
  name : CStr
  pattern : CStr
deriving DecidableEq, Repr

/-- `struct module_blacklist_node`. -/
structure module_blacklist_node where
  name : CStr
  deferred : Bool
deriving DecidableEq, Repr

/-- `is_module_blacklisted_or_deferred`: scan the blacklist for the first
entry with the given name; 0 = loadable, 1 = blacklisted,
2 = deferred-blacklisted while `need_deferred`. -/
def is_module_blacklisted_or_deferred (modules_blacklist : List module_blacklist_node)
    (name : CStr) (need_deferred : Bool) : Int :=
  match modules_blacklist.find? (fun b => b.name == name) with
  | some b => if b.deferred then (if need_deferred then 2 else 0) else 1
  | none => 0

/-- `load_module_by_device_modalias`: walk every alias whose glob pattern
matches the modalias; when the blacklist check returns 0, call insmod.
`fnm` stands for libc `fnmatch(pattern, id, 0) == 0`, `insmodRes` for the
result of `insmod_by_dep`.  Returns the C `ret` value paired with the list
of module names passed to insmod, in call order. -/
def load_module_by_device_modalias (fnm : CStr → CStr → Bool) (insmodRes : CStr → Int)
    (aliases : List module_alias_node) (blacklist : List module_blacklist_node)
    (id : CStr) (need_deferred : Bool) : Int × List CStr :=
  aliases.foldl
    (fun acc al =>
      if fnm al.pattern id then
        if is_module_blacklisted_or_deferred blacklist al.name need_deferred = 0 then
          (insmodRes al.name, acc.2 ++ [al.name])
        else (is_module_blacklisted_or_deferred blacklist al.name need_deferred, acc.2)
      else acc)
    (-1, [])

/-- Global module-engine state: alias table, blacklist table, deferred
modalias queue. -/
structure ModState where
  aliases : List module_alias_node
  blacklist : List module_blacklist_node
  deferred : List CStr
deriving DecidableEq, Repr

/-- `handle_deferred_module_loading`: when the alias table is non-empty,
process every queued modalias with `need_deferred = false` and remove it. -/
def handle_deferred_module_loading (st : ModState) : ModState :=
  if st.aliases.isEmpty then st else { st with deferred := [] }

/-- `handle_module_loading`.  `aliasFile` is the outcome of
`read_modules_aliases` (`none` = the call fails, `some l` = it returns 0 and
appends the parsed entries), `blkFile` likewise for
`read_modules_blacklist` (whose return value the C code ignores);
`booting` is `is_booting()`. -/
def handle_module_loading (fnm : CStr → CStr → Bool) (insmodRes : CStr → Int)
    (aliasFile : Option (List module_alias_node))
    (blkFile : Option (List module_blacklist_node)) (booting : Bool)
    (st : ModState) (modalias : Option CStr) : ModState :=
  let st1 :=
    if st.aliases.isEmpty then
      match aliasFile with
      | some al =>
        { st with aliases := st.aliases ++ al,
                  blacklist := st.blacklist ++ blkFile.getD [] }
      | none => st
    else st
  match modalias with
  | none => st1
  | some m =>
    if st1.aliases.isEmpty = true ∨
        (load_module_by_device_modalias fnm insmodRes st1.aliases st1.blacklist m
          booting).1 = 2 then
      { st1 with deferred := st1.deferred ++ [m] }
    else st1

/-- libc `fnmatch` restricted to the inputs the concrete theorems use: a
pattern without metacharacters matches exactly itself. -/
def fnmEq : CStr → CStr → Bool := fun p s => p == s

/-- An `insmod_by_dep` that always succeeds. -/
def insmodOk : CStr → Int := fun _ => 0

/-- One alias mapping pattern `xy` to module `foo`. -/
def aliasesFoo : List module_alias_node := [{ name := "foo".data, pattern := "xy".data }]

/-- A blacklist with a deferred entry for `foo` shadowing a non-deferred
one. -/
def blkDup : List module_blacklist_node :=
  [{ name := "foo".data, deferred := true }, { name := "foo".data, deferred := false }]

/-- A blacklist whose first `foo` entry is non-deferred. -/
def blkFoo : List module_blacklist_node := [{ name := "foo".data, deferred := false }]

/-- One alias mapping pattern `acpi*` to module `pcihost`. -/
def aliasPcihost : List module_alias_node :=
  [{ name := "pcihost".data, pattern := "acpi*".data }]

/-! ### Firmware loader (`load_firmware`, `process_firmware_event`) -/

/-- One iteration of the `load_firmware` copy loop as seen by the process:
a successful `read` of `n` bytes followed by a `WriteFully` whose success
is `writeOk` (`n = 0` is end-of-file), or a failing `read`. -/
inductive FwStep where
  | chunk (n : Nat) (writeOk : Bool)
  | readErr
deriving DecidableEq, Repr

/-- A firmware file: whether the initial `fstat(fw_fd, &st)` succeeds, the
stat size, and the stream of read/write steps. -/
structure FwFile where
  fstatOk : Bool
  size : Int
  steps : List FwStep
deriving DecidableEq, Repr

/-- The `while (len_to_copy > 0)` loop of `load_firmware`; result is the C
`ret` (0 = success, -1 = I/O error).  Exhausting the steps models `read`
returning 0 at end-of-file. -/
def loadFirmwareLoop : List FwStep → Int → Int
  | [], _ => 0
  | s :: rest, len =>
    if len ≤ 0 then 0
    else
      match s with
      | .readErr => -1
      | .chunk n ok =>
        if n = 0 then 0
        else if ok then loadFirmwareLoop rest (len - (n : Int)) else -1

/-- `load_firmware`: a failing `fstat` returns -1 before anything is
written to the loading file; otherwise write `"1"`, run the copy loop,
then write `"0"` on success or `"-1"` on failure.  Returns the C result
and the sequence of strings written to the `loading` file. -/
def load_firmware (f : FwFile) : Int × List CStr :=
  if f.fstatOk then
    (loadFirmwareLoop f.steps f.size,
     ["1".data, if loadFirmwareLoop f.steps f.size = 0 then "0".data else "-1".data])
  else (-1, [])

/-- Which logged branch `process_firmware_event` finishes in: `copied`
("copy success"), `copyFail` ("copy failure"), `notFound` ("could not
open", reached only with booting false). -/
inductive FwOutcome where
  | copied
  | copyFail
  | notFound
deriving DecidableEq, Repr

/-- `process_firmware_event` over its retry rounds.  Each round holds the
result of searching the firmware directories (`none` = every open failed)
and the `booting` value governing that round (the initial `is_booting()`
for round 0, the re-read value after each 100 ms sleep).  The result is the
write trace on the `loading` file with the finishing branch, or `none` when
the rounds are exhausted with booting still true (the C loop would still be
retrying). -/
def process_firmware_event : List (Option FwFile × Bool) → Option (List CStr × FwOutcome)
  | [] => none
  | (some f, _) :: _ =>
    some ((load_firmware f).2,
      if (load_firmware f).1 = 0 then FwOutcome.copied else FwOutcome.copyFail)
  | (none, b) :: rest =>
    if b then process_firmware_event rest else some ([ "-1".data ], FwOutcome.notFound)

/-- A firmware file whose stat size is larger than the bytes actually read:
a short read ends the stream early without error. -/
def fwShort : FwFile := { fstatOk := true, size := 10, steps := [FwStep.chunk 4 true] }

/-- A firmware file whose initial `fstat` fails. -/
def fwBadStat : FwFile := { fstatOk := false, size := 0, steps := [] }

/-- Rounds for the firmware witness: first search misses while booting,
then the file appears. -/
def roundsOk : List (Option FwFile × Bool) := [(none, true), (some fwShort, false)]

/-! ### Generic and block device handlers (`parse_device_name`,
`assemble_devpath`, `handle_generic_device_event`,
`handle_block_device_event`) -/

/-- The `devname_src` enum of a subsystem override (`DEVNAME_UNKNOWN`,
`DEVNAME_UEVENT_DEVNAME`, `DEVNAME_UEVENT_DEVPATH`). -/
inductive DevnameSrc where
  | unknownSrc
  | duevent
  | dpath
deriving DecidableEq, Repr

/-- Modelled from the spec: an entry of the Subsystem Override Table
(`struct ueventd_subsystem`, defined in ueventd.h/ueventd_parser.c, which
are not under src/): subsystem name, base dirname, devname source. -/
structure ueventd_subsystem where
  name : CStr
  dirname : CStr
  devname_src : DevnameSrc
deriving DecidableEq, Repr

/-- Modelled from the spec: `ueventd_subsystem_find_by_name` (ueventd_parser,
not under src/) looks a subsystem up by name. -/
def ueventd_subsystem_find_by_name (tbl : List ueventd_subsystem) (n : CStr) :
    Option ueventd_subsystem :=
  tbl.find? (fun s => s.name == n)

/-- `assemble_devpath`: `snprintf(devpath, 96, "%s/%s", dirname, devname)`;
a would-be length of 96 or more aborts (`none`). -/
def assemble_devpath (dirname devname : CStr) : Option CStr :=
  if dirname.length + 1 + devname.length ≥ 96 then none
  else some (dirname ++ '/' :: devname)

/-- `parse_device_name`: require non-negative major and minor, a `'/'` in
the devpath, and a leaf name of at most `len` characters. -/
def parse_device_name (u : Uevent) (len : Nat) : Option CStr :=
  if u.major < 0 ∨ u.minor < 0 then none
  else
    match strrchrTail (u.path.getD []) with
    | none => none
    | some name => if name.length > len then none else some name

/-- `%03d`: decimal digits zero-padded to width 3. -/
def pad3 (n : Nat) : CStr :=
  List.replicate (3 - (Nat.repr n).data.length) '0' ++ (Nat.repr n).data

/-- The synthesized `/dev/bus/usb/%03d/%03d` path for a USB event without
DEVNAME (bus = minor/128 + 1, device = minor%128 + 1); the 96-byte buffer
keeps at most 95 characters. -/
def usbSynthPath (minor : Int) : CStr :=
  ("/dev/bus/usb/".data ++ pad3 (minor.toNat / 128 + 1) ++
    '/' :: pad3 (minor.toNat % 128 + 1)).take 95

/-- The base-directory/name selection chain of `handle_generic_device_event`
for subsystems with neither an override entry nor a `usb` prefix. -/
def genericBase (sub name : CStr) : CStr × CStr :=
  if "graphics".data.isPrefixOf sub then ("/dev/graphics/".data, name)
  else if "drm".data.isPrefixOf sub then ("/dev/dri/".data, name)
  else if "oncrpc".data.isPrefixOf sub then ("/dev/oncrpc/".data, name)
  else if "adsp".data.isPrefixOf sub then ("/dev/adsp/".data, name)
  else if "msm_camera".data.isPrefixOf sub then ("/dev/msm_camera/".data, name)
  else if "input".data.isPrefixOf sub then ("/dev/input/".data, name)
  else if "mtd".data.isPrefixOf sub then ("/dev/mtd/".data, name)
  else if "sound".data.isPrefixOf sub then ("/dev/snd/".data, name)
  else if "misc".data.isPrefixOf sub && "log_".data.isPrefixOf name then
    ("/dev/log/".data, name.drop 4)
  else ("/dev/".data, name)

/-- `handle_generic_device_event`, reduced to the devpath it hands to
`handle_device` (`none` = the event is aborted before any node is created,
removed or relabelled).  A NULL DEVNAME in the override branch reaches
glibc's `%s` of NULL, printed as `(null)`. -/
def handle_generic_device_event (tbl : List ueventd_subsystem) (u : Uevent) :
    Option CStr :=
  match parse_device_name u 64 with
  | none => none
  | some name =>
    match ueventd_subsystem_find_by_name tbl (u.subsystem.getD []) with
    | some s =>
      match s.devname_src with
      | DevnameSrc.duevent => assemble_devpath s.dirname (u.device_name.getD "(null)".data)
      | DevnameSrc.dpath => assemble_devpath s.dirname name
      | DevnameSrc.unknownSrc => none
    | none =>
      if "usb".data.isPrefixOf (u.subsystem.getD []) then
        if u.subsystem.getD [] == "usb".data || u.subsystem.getD [] == "usbmisc".data then
          match u.device_name with
          | some dn => assemble_devpath "/dev".data dn
          | none => some (usbSynthPath u.minor)
        else none
      else
        some (((genericBase (u.subsystem.getD []) name).1 ++
          (genericBase (u.subsystem.getD []) name).2).take 95)

/-- `handle_block_device_event`, reduced to the devpath it hands to
`handle_device` (96-byte buffer; the leaf is at most 64 characters, so
`/dev/block/<leaf>` always fits). -/
def handle_block_device_event (u : Uevent) : Option CStr :=
  match parse_device_name u 64 with
  | none => none
  | some name => some (("/dev/block/".data ++ name).take 95)

/-- The `(dirname, devname)` pair the generic handler feeds to
`assemble_devpath`, when its branch uses one (observer for C8's abort
clause). -/
def chosenAssembly (tbl : List ueventd_subsystem) (u : Uevent) :
    Option (CStr × CStr) :=
  match parse_device_name u 64 with
  | none => none
  | some name =>
    match ueventd_subsystem_find_by_name tbl (u.subsystem.getD []) with
    | some s =>
      match s.devname_src with
      | DevnameSrc.duevent => some (s.dirname, u.device_name.getD "(null)".data)
      | DevnameSrc.dpath => some (s.dirname, name)
      | DevnameSrc.unknownSrc => none
    | none =>
      if "usb".data.isPrefixOf (u.subsystem.getD []) then
        if u.subsystem.getD [] == "usb".data || u.subsystem.getD [] == "usbmisc".data then
          match u.device_name with
          | some dn => some ("/dev".data, dn)
          | none => none
        else none
      else none

/-- A sound-subsystem `add` uevent (C8 witness). -/
def uevSound : Uevent :=
  { uevInit with action := some "add".data, subsystem := some "sound".data,
                 path := some "/devices/z/pcmC0D0p".data, major := 116, minor := 3 }

/-- A uevent with no MAJOR tag (C10 witness). -/
def uevNoMajor : Uevent :=
  { uevInit with minor := 3, path := some "/devices/x/y".data }

/-! ### The uevent parser (`parse_event`) -/

/-- One step of the `parse_event` record loop: match the known tags in the
C source's order of `strncmp` tests and capture the value (the rest of the
record); unknown records leave the struct unchanged. -/
def parseRecord (u : Uevent) (r : CStr) : Uevent :=
  if "ACTION=".data.isPrefixOf r then { u with action := some (r.drop 7) }
  else if "DEVPATH=".data.isPrefixOf r then { u with path := some (r.drop 8) }
  else if "SUBSYSTEM=".data.isPrefixOf r then { u with subsystem := some (r.drop 10) }
  else if "FIRMWARE=".data.isPrefixOf r then { u with firmware := some (r.drop 9) }
  else if "MAJOR=".data.isPrefixOf r then { u with major := atoi (r.drop 6) }
  else if "MINOR=".data.isPrefixOf r then { u with minor := atoi (r.drop 6) }
  else if "PARTN=".data.isPrefixOf r then { u with partition_num := atoi (r.drop 6) }
  else if "PARTNAME=".data.isPrefixOf r then { u with partition_name := some (r.drop 9) }
  else if "DEVNAME=".data.isPrefixOf r then { u with device_name := some (r.drop 8) }
  else if "MODALIAS=".data.isPrefixOf r then { u with modalias := some (r.drop 9) }
  else u

/-- The records the `while(*msg)` loop visits: the NUL-separated records up
to the first empty one (the terminating double NUL). -/
def processedRecords (msg : List CStr) : List CStr :=
  msg.takeWhile (fun r => !(r == []))

/-- `parse_event`: initialise the struct, then fold the record loop. -/
def parse_event (msg : List CStr) : Uevent :=
  (processedRecords msg).foldl parseRecord uevInit

/-- The value of the last record carrying the given tag (later records
overwrite earlier ones), if any. -/
def lastTagValue (tag : CStr) : List CStr → Option CStr
  | [] => none
  | r :: rest =>
    match lastTagValue tag rest with
    | some v => some v
    | none => if tag.isPrefixOf r then some (r.drop tag.length) else none

end Devices

namespace Devices

/-! ### Theorems: C1 (permission resolution) and C7 (PCI prefix) -/

/-- A list whose first optional element is `some a` decomposes as a cons. -/
theorem head_eq_of_getElem0 {α : Type} (l : List α) (a : α) (h : l[0]? = some a) :
    l = a :: l.tail := by
  cases l with
  | nil => simp at h
  | cons x r =>
    simp only [List.getElem?_cons_zero, Option.some.injEq] at h
    subst h
    rfl

/-- Cons-step of `findIdx?` starting at index 0. -/
theorem findIdxSlash_cons (p : Char → Bool) (c : Char) (r : CStr) :
    List.findIdx? p (c :: r) = if p c then some 0 else (List.findIdx? p r).map (· + 1) := by
  rw [List.findIdx?_cons, List.findIdx?_succ]

/-- The first slash index recorded by `slashIdxs` is `findIdx?` of `'/'`. -/
theorem slashIdxs_head (s : CStr) :
    (slashIdxs s)[0]? = s.findIdx? (fun c => c == '/') := by
  induction s with
  | nil => simp [slashIdxs, List.findIdx?]
  | cons c r ih =>
    rw [findIdxSlash_cons]
    by_cases hc : c = '/'
    · simp [slashIdxs, hc]
    · have hc' : (c == '/') = false := by simp [hc]
      simp [slashIdxs, hc, hc', ih]

/-- Decomposition of `slashIdxs` at its first element. -/
theorem slashIdxs_after (s : CStr) :
    ∀ i, s.findIdx? (fun c => c == '/') = some i →
      slashIdxs s = i :: (slashIdxs (s.drop (i + 1))).map (· + (i + 1)) := by
  induction s with
  | nil => intro i h; simp [List.findIdx?] at h
  | cons c r ih =>
    intro i h
    rw [findIdxSlash_cons] at h
    by_cases hc : c = '/'
    · have hcb : (c == '/') = true := by simp [hc]
      rw [hcb] at h
      simp only [if_true] at h
      injection h with h
      subst h
      simp [slashIdxs, hc]
    · have hc' : (c == '/') = false := by simp [hc]
      rw [hc'] at h
      simp only [Bool.false_eq_true, if_false] at h
      rcases Option.map_eq_some'.mp h with ⟨i', hi', rfl⟩
      have hdrop : (c :: r).drop (i' + 1 + 1) = r.drop (i' + 1) := rfl
      rw [hdrop]
      simp only [slashIdxs, if_neg hc, List.nil_append, ih i' hi', List.map_cons,
        List.map_map]
      refine congrArg₂ _ rfl (List.map_congr_left ?_)
      intro a _
      simp [Function.comp]
      omega

/-- C7 (amended): `find_pci_device_prefix` succeeds exactly on paths starting
`/devices/pci` with a *second* `'/'` at or after offset 9 and a large enough
buffer, returning the substring from offset 9 up to that second slash;
otherwise it fails. -/
theorem c7_pci_amended (path : CStr) (buf_sz : Int) :
    find_pci_device_prefix path buf_sz = pciClaimSecond path buf_sz := by
  unfold find_pci_device_prefix pciClaimSecond
  by_cases hp : "/devices/pci".data.isPrefixOf path
  · simp only [hp, if_true]
    cases hi : (path.drop 9).findIdx? (fun c => c == '/') with
    | none =>
      have h0 := slashIdxs_head (path.drop 9)
      rw [hi] at h0
      have hsl : slashIdxs (path.drop 9) = [] := by
        cases hq : slashIdxs (path.drop 9) with
        | nil => rfl
        | cons a l => rw [hq] at h0; simp at h0
      rw [hsl]
      rfl
    | some i =>
      rw [slashIdxs_after (path.drop 9) i hi]
      dsimp only
      cases hj : ((path.drop 9).drop (i + 1)).findIdx? (fun c => c == '/') with
      | none =>
        have h0 := slashIdxs_head ((path.drop 9).drop (i + 1))
        rw [hj] at h0
        have hsl : slashIdxs ((path.drop 9).drop (i + 1)) = [] := by
          cases hq : slashIdxs ((path.drop 9).drop (i + 1)) with
          | nil => rfl
          | cons a l => rw [hq] at h0; simp at h0
        rw [hsl]
        simp
      | some j =>
        have h0 := slashIdxs_head ((path.drop 9).drop (i + 1))
        rw [hj] at h0
        have hsl := head_eq_of_getElem0 _ _ h0
        rw [hsl]
        dsimp only
        simp only [List.map_cons, List.getElem?_cons_succ, List.getElem?_cons_zero,
          Option.some_bind]
        have hcomm : j + (i + 1) = i + 1 + j := by omega
        rw [hcomm]
  · simp [hp]

/-- C7 (counterexample): on `/devices/pci0000:00/0000:00:1f.2/host0/target0`
the code stops before the *second* slash after offset 9, not the third as
the claim states. -/
theorem c7_pci_cex :
    find_pci_device_prefix "/devices/pci0000:00/0000:00:1f.2/host0/target0".data 256 =
      some "pci0000:00/0000:00:1f.2".data ∧
    pciClaimThird "/devices/pci0000:00/0000:00:1f.2/host0/target0".data =
      some "pci0000:00/0000:00:1f.2/host0".data ∧
    find_pci_device_prefix "/devices/pci0000:00/0000:00:1f.2/host0/target0".data 256 ≠
      pciClaimThird "/devices/pci0000:00/0000:00:1f.2/host0/target0".data := by
  refine ⟨by decide, by decide, by decide⟩

/-- C1: permission resolution scans the dev-node rule list in reverse
insertion order and returns the uid/gid/mode of the first rule matching the
path or, failing that, one of the alternate links; if no rule matches it
returns uid 0, gid 0, mode 0o600. -/
theorem c1_perm_resolution (fnm : CStr → CStr → Bool) (dev_perms : List Perms)
    (path : CStr) (links : Option (List CStr)) :
    get_device_perm fnm dev_perms path links =
      match dev_perms.reverse.find? (fun dp => permMatchesAny fnm path links dp) with
      | some dp => (dp.uid, dp.gid, dp.perm)
      | none => (0, 0, 0o600) := by
  unfold get_device_perm
  generalize dev_perms.reverse = l
  induction l with
  | nil => rfl
  | cons dp rest ih =>
    by_cases h : permMatchesAny fnm path links dp = true
    · simp [gdpLoop, List.find?, h]
    · simp only [Bool.not_eq_true] at h
      simp [gdpLoop, List.find?, h, ih]

/-! ### Theorems: C4 (platform registry distinctness) -/

/-- Paths stored after an `add` are the old paths plus the added one. -/
theorem add_platform_device_paths (p : CStr) (st : List platform_node) :
    (add_platform_device p st).map (fun bus => bus.path) =
      st.map (fun bus => bus.path) ++ [p] := by
  simp [add_platform_device]

/-- `remove_platform_device` yields a sublist of the registry. -/
theorem remove_platform_device_sublist (p : CStr) (st : List platform_node) :
    List.Sublist (remove_platform_device p st) st := by
  have h1 : List.Sublist ((st.reverse).eraseP (fun bus => bus.path == p)) st.reverse :=
    List.eraseP_sublist _
  have h2 := List.reverse_sublist.mpr h1
  rw [List.reverse_reverse] at h2
  exact h2

/-- C4 (counterexample): two consecutive platform adds of the same devpath
leave the registry with duplicate paths — `add_platform_device` never checks
for an existing entry. -/
theorem c4_registry_cex :
    ¬ ((runPlatformEvents [] [uevAddFoo, uevAddFoo]).map (fun bus => bus.path)).Nodup := by
  decide

/-- C4 (amended): the registry paths stay pairwise distinct under any
sequence of platform add/remove events in which every add's devpath is
absent from the registry at the time of the add; `remove_platform_device`
always preserves distinctness, `add_platform_device` preserves it exactly
when the added path is fresh. -/
theorem c4_registry_amended (evs : List Uevent) :
    ∀ st : List platform_node, (st.map (fun bus => bus.path)).Nodup →
      freshAdds st evs = true →
      ((runPlatformEvents st evs).map (fun bus => bus.path)).Nodup := by
  induction evs with
  | nil =>
    intro st h _
    simpa [runPlatformEvents] using h
  | cons u evs ih =>
    intro st h hf
    simp only [freshAdds, Bool.and_eq_true] at hf
    obtain ⟨hf1, hf2⟩ := hf
    refine ih _ ?_ hf2
    unfold handle_platform_device_event
    by_cases ha : (u.action.getD [] == "add".data) = true
    · rw [if_pos ha]
      rw [if_pos ha] at hf1
      rw [add_platform_device_paths]
      rw [List.nodup_append]
      refine ⟨h, List.nodup_singleton _, ?_⟩
      intro q hq hq1
      simp only [List.mem_singleton] at hq1
      subst hq1
      simp only [List.mem_map] at hq
      obtain ⟨bus, hbus, hbp⟩ := hq
      have := List.all_eq_true.mp hf1 bus hbus
      simp only [Bool.not_eq_eq_eq_not, Bool.not_true, beq_eq_false_iff_ne] at this
      exact this hbp
    · rw [if_neg ha]
      rw [if_neg ha] at hf1
      by_cases hr : (u.action.getD [] == "remove".data) = true
      · rw [if_pos hr]
        exact h.sublist ((remove_platform_device_sublist _ _).map _)
      · rw [if_neg hr]
        exact h

/-! ### Theorems: C5 (block device symlink list) -/

/-- When the base path fits the 256-byte buffer, `link_path` is untruncated. -/
theorem linkPathOf_of_le (ty device : CStr)
    (h : ("/dev/block/".data ++ ty ++ '/' :: device).length ≤ 255) :
    linkPathOf ty device = "/dev/block/".data ++ ty ++ '/' :: device :=
  List.take_of_length_le h

/-- An untruncated `link_path` produces exactly the claim's link list. -/
theorem blockLinksFrom_untruncated (ty device upath : CStr) (pname : Option CStr)
    (pnum : Int) (h : ("/dev/block/".data ++ ty ++ '/' :: device).length ≤ 255) :
    blockLinksFrom (linkPathOf ty device) upath pname pnum =
      claimBlockLinks ty device upath pname pnum := by
  rw [linkPathOf_of_le ty device h]
  unfold blockLinksFrom claimBlockLinks
  cases pname with
  | none => simp [List.append_assoc]
  | some p => simp [List.append_assoc]

set_option maxRecDepth 20000 in
/-- C5 (counterexample): with a 240-character platform device name the
`link_path` buffer truncates at 255 bytes, so the emitted leaf link is not
the `/dev/block/platform/<device>/<tail>` string the claim prescribes. -/
theorem c5_block_links_cex :
    get_block_device_symlinks regLong uevBlockLong ≠
      some (claimBlockLinks "platform".data longAs
        ("/devices/platform/".data ++ longAs ++ "/mmcblk0".data) none (-1)) := by
  decide

/-- C5 (amended): provided the base `/dev/block/<type>/<device>` fits the
256-byte buffer, the link list is exactly as claimed: by-name (when a
partition name is present), by-num (when the partition number is >= 0),
then the devpath leaf, in that order; platform parents take precedence over
PCI prefixes, and with neither there are no links at all. -/
theorem c5_block_links_amended (platform_names : List platform_node) (u : Uevent) :
    (∀ pdev, find_platform_device platform_names (u.path.getD []) = some pdev →
      ("/dev/block/".data ++ "platform".data ++ '/' :: pdev.name).length ≤ 255 →
      get_block_device_symlinks platform_names u =
        some (claimBlockLinks "platform".data pdev.name (u.path.getD [])
          u.partition_name u.partition_num)) ∧
    (find_platform_device platform_names (u.path.getD []) = none →
      ∀ dev, find_pci_device_prefix (u.path.getD []) 256 = some dev →
        ("/dev/block/".data ++ "pci".data ++ '/' :: dev).length ≤ 255 →
        get_block_device_symlinks platform_names u =
          some (claimBlockLinks "pci".data dev (u.path.getD [])
            u.partition_name u.partition_num)) ∧
    (find_platform_device platform_names (u.path.getD []) = none →
      find_pci_device_prefix (u.path.getD []) 256 = none →
      get_block_device_symlinks platform_names u = none) := by
  refine ⟨?_, ?_, ?_⟩
  · intro pdev hp hlen
    unfold get_block_device_symlinks
    rw [hp]
    dsimp only
    rw [blockLinksFrom_untruncated _ _ _ _ _ hlen]
  · intro hp dev hpci hlen
    unfold get_block_device_symlinks
    rw [hp, hpci]
    dsimp only
    rw [blockLinksFrom_untruncated _ _ _ _ _ hlen]
  · intro hp hpci
    unfold get_block_device_symlinks
    rw [hp, hpci]

/-- C5 (witness): the spec's scenario 1 — block add of `mmcblk0p3` under
platform `soc.0` with PARTNAME `system` and PARTN 3 yields exactly the three
expected links. -/
theorem c5_block_links_witness :
    get_block_device_symlinks regSoc uevBlockSoc =
      some ["/dev/block/platform/soc.0/by-name/system".data,
            "/dev/block/platform/soc.0/by-num/p3".data,
            "/dev/block/platform/soc.0/mmcblk0p3".data] := by
  have h := (c5_block_links_amended regSoc uevBlockSoc).1
    { name := "soc.0".data, path := "/devices/platform/soc.0".data }
    (by decide) (by decide)
  rw [h]
  decide

/-! ### Theorems: C2 (blacklist honoured), C3 (deferred queue), C6 (firmware) -/

/-- The insmod trace of `load_module_by_device_modalias`: exactly the names
of matching aliases that pass the blacklist check. -/
theorem load_module_trace (fnm : CStr → CStr → Bool) (insmodRes : CStr → Int)
    (aliases : List module_alias_node) (blacklist : List module_blacklist_node)
    (id : CStr) (nd : Bool) :
    (load_module_by_device_modalias fnm insmodRes aliases blacklist id nd).2 =
      aliases.filterMap (fun al =>
        if fnm al.pattern id = true ∧
            is_module_blacklisted_or_deferred blacklist al.name nd = 0 then
          some al.name
        else none) := by
  unfold load_module_by_device_modalias
  suffices h : ∀ (l : List module_alias_node) (r0 : Int) (t0 : List CStr),
      (l.foldl
        (fun acc al =>
          if fnm al.pattern id then
            if is_module_blacklisted_or_deferred blacklist al.name nd = 0 then
              (insmodRes al.name, acc.2 ++ [al.name])
            else (is_module_blacklisted_or_deferred blacklist al.name nd, acc.2)
          else acc)
        (r0, t0)).2 =
      t0 ++ l.filterMap (fun al =>
        if fnm al.pattern id = true ∧
            is_module_blacklisted_or_deferred blacklist al.name nd = 0 then
          some al.name
        else none) by
    simpa using h aliases (-1) []
  intro l
  induction l with
  | nil => intro r0 t0; simp
  | cons al rest ih =>
    intro r0 t0
    by_cases hm : fnm al.pattern id = true
    · by_cases hb : is_module_blacklisted_or_deferred blacklist al.name nd = 0
      · simp only [List.foldl_cons, if_pos hm, if_pos hb, ih, List.filterMap_cons]
        rw [if_pos ⟨hm, hb⟩]
        simp [List.append_assoc]
      · simp only [List.foldl_cons, if_pos hm, if_neg hb, ih, List.filterMap_cons]
        rw [if_neg (fun hc => hb hc.2)]
    · simp only [Bool.not_eq_true] at hm
      simp only [List.foldl_cons, hm, Bool.false_eq_true, if_false, ih,
        List.filterMap_cons]
      rw [if_neg (fun hc => hc.1)]

/-- C2 (counterexample): module `foo` appears in the blacklist with
`deferred = false`, yet insmod is invoked with `foo` — the scan stops at the
first matching entry, here an earlier `deferred = true` one, and
`need_deferred = false` makes that entry loadable. -/
theorem c2_blacklist_cex :
    ({ name := "foo".data, deferred := false } : module_blacklist_node) ∈ blkDup ∧
    "foo".data ∈
      (load_module_by_device_modalias fnmEq insmodOk aliasesFoo blkDup
        "xy".data false).2 := by
  decide

/-- C2 (amended): if the *first* blacklist entry carrying the alias's module
name has `deferred = false`, then insmod is never invoked with that module
name, for every modalias, every alias table, every insmod outcome and both
values of `need_deferred`. -/
theorem c2_blacklist_amended (fnm : CStr → CStr → Bool) (insmodRes : CStr → Int)
    (aliases : List module_alias_node) (blacklist : List module_blacklist_node)
    (id : CStr) (need_deferred : Bool) (n : CStr) (b : module_blacklist_node)
    (hfind : blacklist.find? (fun bb => bb.name == n) = some b)
    (hdef : b.deferred = false) :
    n ∉ (load_module_by_device_modalias fnm insmodRes aliases blacklist id
          need_deferred).2 := by
  rw [load_module_trace]
  intro hmem
  rcases List.mem_filterMap.mp hmem with ⟨al, _, hf⟩
  by_cases hc : fnm al.pattern id = true ∧
      is_module_blacklisted_or_deferred blacklist al.name need_deferred = 0
  · rw [if_pos hc] at hf
    injection hf with hf
    subst hf
    have := hc.2
    unfold is_module_blacklisted_or_deferred at this
    rw [hfind] at this
    simp [hdef] at this
  · rw [if_neg hc] at hf
    exact Option.noConfusion hf

/-- C2 (witness): with `foo` first blacklisted non-deferred, the insmod
trace for a matching modalias avoids `foo`. -/
theorem c2_blacklist_witness :
    blkFoo.find? (fun bb => bb.name == "foo".data) =
      some { name := "foo".data, deferred := false } ∧
    "foo".data ∉
      (load_module_by_device_modalias fnmEq insmodOk aliasesFoo blkFoo
        "xy".data false).2 :=
  ⟨by decide,
    c2_blacklist_amended fnmEq insmodOk aliasesFoo blkFoo "xy".data false "foo".data
      { name := "foo".data, deferred := false } (by decide) (by decide)⟩

/-- C3: with the alias table empty, a succeeding read of modules.alias and a
read of the blacklist, `handle_module_loading` returns with the previously
queued modalias still in the deferred queue — the queue is not drained
(`handle_deferred_module_loading` is called only from `device_init`). -/
theorem c3_no_drain :
    handle_module_loading fnmEq insmodOk (some aliasPcihost) (some []) false
        { aliases := [], blacklist := [], deferred := ["acpi:OLD".data] } none =
      { aliases := aliasPcihost, blacklist := [], deferred := ["acpi:OLD".data] } := by
  decide

/-- C6 (counterexample): a firmware file whose `fstat` fails makes the copy
fail (the code logs "copy failure"), yet `load_firmware` returned before
writing anything — the loading-file trace is empty, so its last write is
neither `"-1"` nor `"0"`. -/
theorem c6_firmware_cex :
    process_firmware_event [(some fwBadStat, false)] =
      some (([] : List CStr), FwOutcome.copyFail) ∧
    (([] : List CStr).getLast? = some "-1".data → False) ∧
    (([] : List CStr).getLast? = some "0".data → False) := by
  refine ⟨by decide, by decide, by decide⟩

/-- C6 (amended): a successful copy ends with the single byte `'0'` as the
last write to the loading file; an I/O failure inside the copy loop (the
initial `fstat` succeeded) ends with the two bytes `"-1"`; a copy aborted
by a failing `fstat` writes nothing to the loading file at all; firmware
not found with booting false writes exactly `"-1"`. -/
theorem c6_firmware_loading_writes :
    (∀ f : FwFile,
      ((load_firmware f).1 = 0 → (load_firmware f).2.getLast? = some "0".data) ∧
      (f.fstatOk = true → (load_firmware f).1 ≠ 0 →
        (load_firmware f).2.getLast? = some "-1".data) ∧
      (f.fstatOk = false → (load_firmware f).2 = [])) ∧
    (∀ (rounds : List (Option FwFile × Bool)) (t : List CStr) (oc : FwOutcome),
      process_firmware_event rounds = some (t, oc) →
      (oc = FwOutcome.copied → t.getLast? = some "0".data) ∧
      (oc = FwOutcome.copyFail → (t.getLast? = some "-1".data ∨ t = [])) ∧
      (oc = FwOutcome.notFound → t.getLast? = some "-1".data)) := by
  constructor
  · intro f
    refine ⟨?_, ?_, ?_⟩
    · intro h0
      unfold load_firmware at h0 ⊢
      by_cases hst : f.fstatOk = true
      · rw [if_pos hst] at h0 ⊢
        dsimp only at h0 ⊢
        simp [h0]
      · rw [if_neg hst] at h0
        simp at h0
    · intro hst hne
      unfold load_firmware at hne ⊢
      rw [if_pos hst] at hne ⊢
      dsimp only at hne ⊢
      rw [if_neg hne]
      simp
    · intro hst
      unfold load_firmware
      have hst' : ¬ (f.fstatOk = true) := by simp [hst]
      rw [if_neg hst']
  · intro rounds
    induction rounds with
    | nil => intro t oc h; simp [process_firmware_event] at h
    | cons rd rest ih =>
      intro t oc h
      obtain ⟨fopt, b⟩ := rd
      cases fopt with
      | some f =>
        simp only [process_firmware_event, Option.some.injEq] at h
        rw [Prod.mk.injEq] at h
        obtain ⟨ht, hoc⟩ := h
        subst ht
        subst hoc
        by_cases hr : (load_firmware f).1 = 0
        · rw [if_pos hr]
          refine ⟨fun _ => ?_, fun hq => absurd hq (by simp), fun hq => absurd hq (by simp)⟩
          unfold load_firmware at hr ⊢
          by_cases hst : f.fstatOk = true
          · rw [if_pos hst] at hr ⊢
            dsimp only at hr ⊢
            simp [hr]
          · rw [if_neg hst] at hr
            simp at hr
        · rw [if_neg hr]
          refine ⟨fun hq => absurd hq (by simp), fun _ => ?_, fun hq => absurd hq (by simp)⟩
          unfold load_firmware at hr ⊢
          by_cases hst : f.fstatOk = true
          · left
            rw [if_pos hst] at hr ⊢
            dsimp only at hr ⊢
            rw [if_neg hr]
            simp
          · right
            rw [if_neg hst]
      | none =>
        simp only [process_firmware_event] at h
        by_cases hb : b = true
        · rw [if_pos hb] at h
          exact ih t oc h
        · rw [if_neg hb] at h
          simp only [Option.some.injEq, Prod.mk.injEq] at h
          obtain ⟨ht, hoc⟩ := h
          subst ht
          subst hoc
          refine ⟨fun hq => ?_, fun hq => ?_, fun _ => rfl⟩
          · exact absurd hq (by simp)
          · exact absurd hq (by simp)

/-- C6 (witness): a miss while booting, then a short-read copy: the loading
trace is `"1"` then `"0"`, and its last write is `"0"`; the loop-failure
clause holds at a file whose only write fails. -/
theorem c6_firmware_witness :
    process_firmware_event roundsOk = some (["1".data, "0".data], FwOutcome.copied) ∧
    (["1".data, "0".data] : List CStr).getLast? = some "0".data ∧
    (load_firmware { fstatOk := true, size := 10, steps := [FwStep.chunk 4 false] }).2.getLast? =
      some "-1".data :=
  ⟨by decide,
    (c6_firmware_loading_writes.2 roundsOk ["1".data, "0".data] FwOutcome.copied
      (by decide)).1 rfl,
    (c6_firmware_loading_writes.1
      { fstatOk := true, size := 10, steps := [FwStep.chunk 4 false] }).2.1 rfl
      (by decide)⟩

/-- C4 (witness): a concrete fresh add/remove/add sequence keeps the
registry duplicate-free. -/
theorem c4_registry_witness :
    (([] : List platform_node).map (fun bus => bus.path)).Nodup ∧
    freshAdds [] [uevAddFoo, uevRemoveFoo, uevAddFoo] = true ∧
    ((runPlatformEvents [] [uevAddFoo, uevRemoveFoo, uevAddFoo]).map
        (fun bus => bus.path)).Nodup :=
  ⟨by decide, by decide,
    c4_registry_amended [uevAddFoo, uevRemoveFoo, uevAddFoo] [] (by decide) (by decide)⟩

/-! ### Theorems: C8 (devpath length limit), C10 (bad uevents ignored) -/

/-- A devpath produced by `assemble_devpath` is at most 95 characters. -/
theorem assemble_devpath_length (dirname devname dp : CStr)
    (h : assemble_devpath dirname devname = some dp) : dp.length ≤ 95 := by
  unfold assemble_devpath at h
  by_cases hov : dirname.length + 1 + devname.length ≥ 96
  · rw [if_pos hov] at h
    exact Option.noConfusion h
  · rw [if_neg hov] at h
    injection h with h
    subst h
    simp only [List.length_append, List.length_cons]
    omega

/-- `assemble_devpath` aborts whenever the combined path would exceed 95
characters. -/
theorem assemble_devpath_overflow (dirname devname : CStr)
    (h : 95 < dirname.length + 1 + devname.length) :
    assemble_devpath dirname devname = none := by
  unfold assemble_devpath
  rw [if_pos (by omega)]

/-- C8: every devpath the generic handler assembles is at most 95 bytes,
and whenever the chosen base directory plus device name would exceed that
limit the event is aborted — the handler returns without reaching
`handle_device`. -/
theorem c8_devpath_limit (tbl : List ueventd_subsystem) (u : Uevent) :
    (∀ dp, handle_generic_device_event tbl u = some dp → dp.length ≤ 95) ∧
    (∀ d n, chosenAssembly tbl u = some (d, n) → 95 < d.length + 1 + n.length →
      handle_generic_device_event tbl u = none) := by
  constructor
  · intro dp h
    unfold handle_generic_device_event at h
    cases hpn : parse_device_name u 64 with
    | none => rw [hpn] at h; exact Option.noConfusion h
    | some name =>
      rw [hpn] at h
      dsimp only at h
      cases hfind : ueventd_subsystem_find_by_name tbl (u.subsystem.getD []) with
      | some s =>
        rw [hfind] at h
        dsimp only at h
        cases hsrc : s.devname_src
        · rw [hsrc] at h
          exact Option.noConfusion h
        · rw [hsrc] at h
          exact assemble_devpath_length _ _ _ h
        · rw [hsrc] at h
          exact assemble_devpath_length _ _ _ h
      | none =>
        rw [hfind] at h
        dsimp only at h
        by_cases husb : ("usb".data.isPrefixOf (u.subsystem.getD [])) = true
        · rw [if_pos husb] at h
          by_cases husb2 :
              (u.subsystem.getD [] == "usb".data || u.subsystem.getD [] == "usbmisc".data) = true
          · rw [if_pos husb2] at h
            cases hdn : u.device_name with
            | some dn =>
              rw [hdn] at h
              exact assemble_devpath_length _ _ _ h
            | none =>
              rw [hdn] at h
              injection h with h
              subst h
              exact List.length_take_le _ _
          · rw [if_neg husb2] at h
            exact Option.noConfusion h
        · rw [if_neg husb] at h
          injection h with h
          subst h
          exact List.length_take_le _ _
  · intro d n hc hov
    unfold chosenAssembly at hc
    unfold handle_generic_device_event
    cases hpn : parse_device_name u 64 with
    | none => simp [hpn] at hc
    | some name =>
      rw [hpn] at hc
      dsimp only at hc
      dsimp only
      cases hfind : ueventd_subsystem_find_by_name tbl (u.subsystem.getD []) with
      | some s =>
        rw [hfind] at hc
        dsimp only at hc
        dsimp only
        cases hsrc : s.devname_src
        · simp [hsrc] at hc
        · rw [hsrc] at hc
          dsimp only at hc
          injection hc with hc
          rw [Prod.mk.injEq] at hc
          obtain ⟨hd, hn⟩ := hc
          subst hd
          subst hn
          dsimp only
          exact assemble_devpath_overflow _ _ hov
        · rw [hsrc] at hc
          dsimp only at hc
          injection hc with hc
          rw [Prod.mk.injEq] at hc
          obtain ⟨hd, hn⟩ := hc
          subst hd
          subst hn
          dsimp only
          exact assemble_devpath_overflow _ _ hov
      | none =>
        rw [hfind] at hc
        dsimp only at hc
        dsimp only
        by_cases husb : ("usb".data.isPrefixOf (u.subsystem.getD [])) = true
        · rw [if_pos husb] at hc ⊢
          by_cases husb2 :
              (u.subsystem.getD [] == "usb".data || u.subsystem.getD [] == "usbmisc".data) = true
          · rw [if_pos husb2] at hc ⊢
            cases hdn : u.device_name with
            | some dn =>
              rw [hdn] at hc
              dsimp only at hc
              injection hc with hc
              rw [Prod.mk.injEq] at hc
              obtain ⟨hd, hn⟩ := hc
              subst hd
              subst hn
              dsimp only
              exact assemble_devpath_overflow _ _ hov
            | none => simp [hdn] at hc
          · rw [if_neg husb2] at hc
            exact Option.noConfusion hc
        · rw [if_neg husb] at hc
          exact Option.noConfusion hc

/-- C8 (witness): a sound-subsystem add yields `/dev/snd/pcmC0D0p`, whose
length is within the 95-byte limit. -/
theorem c8_devpath_limit_witness :
    handle_generic_device_event [] uevSound = some "/dev/snd/pcmC0D0p".data ∧
    ("/dev/snd/pcmC0D0p".data).length ≤ 95 :=
  ⟨by decide, (c8_devpath_limit [] uevSound).1 "/dev/snd/pcmC0D0p".data (by decide)⟩

/-- C10: a uevent with negative major or minor, or whose devpath leaf
exceeds 64 bytes, makes `parse_device_name` return NULL, so both the block
and the generic handler return before touching any device node. -/
theorem c10_bad_uevent_ignored (tbl : List ueventd_subsystem) (u : Uevent)
    (h : u.major < 0 ∨ u.minor < 0 ∨
      (∃ t, strrchrTail (u.path.getD []) = some t ∧ 64 < t.length)) :
    parse_device_name u 64 = none ∧ handle_block_device_event u = none ∧
    handle_generic_device_event tbl u = none := by
  have hp : parse_device_name u 64 = none := by
    unfold parse_device_name
    by_cases hmm : u.major < 0 ∨ u.minor < 0
    · rw [if_pos hmm]
    · rw [if_neg hmm]
      rcases h with h | h | ⟨t, ht, hlen⟩
      · exact absurd (Or.inl h) hmm
      · exact absurd (Or.inr h) hmm
      · rw [ht]
        dsimp only
        rw [if_pos hlen]
  refine ⟨hp, ?_, ?_⟩
  · unfold handle_block_device_event
    rw [hp]
  · unfold handle_generic_device_event
    rw [hp]

/-- C10 (witness): a uevent whose MAJOR tag is absent (major = -1) is
dropped by both handlers. -/
theorem c10_bad_uevent_witness :
    uevNoMajor.major < 0 ∧
    handle_block_device_event uevNoMajor = none ∧
    handle_generic_device_event [] uevNoMajor = none :=
  ⟨by decide, (c10_bad_uevent_ignored [] uevNoMajor (Or.inl (by decide))).2⟩

/-! ### Theorems: C9 (parse_event field discipline) -/

/-- Two tags neither of which prefixes the other cannot both prefix the
same record. -/
theorem tagExcl (t1 t2 : CStr) {r : CStr} (h12 : t1.isPrefixOf t2 = false)
    (h21 : t2.isPrefixOf t1 = false) (h : t2.isPrefixOf r = true) :
    t1.isPrefixOf r = false := by
  by_contra hc
  rw [Bool.not_eq_false] at hc
  have p1 := List.isPrefixOf_iff_prefix.mp hc
  have p2 := List.isPrefixOf_iff_prefix.mp h
  rcases List.prefix_or_prefix_of_prefix p1 p2 with hp | hp
  · have := List.isPrefixOf_iff_prefix.mpr hp
    rw [h12] at this
    exact Bool.false_ne_true this
  · have := List.isPrefixOf_iff_prefix.mpr hp
    rw [h21] at this
    exact Bool.false_ne_true this

/-- The `action` field after one `parseRecord` step. -/
theorem parseRecord_action (u : Uevent) (r : CStr) :
    (parseRecord u r).action =
      if "ACTION=".data.isPrefixOf r then some (r.drop 7) else u.action := by
  unfold parseRecord
  by_cases h1 : ("ACTION=".data.isPrefixOf r) = true
  · simp [h1]
  · by_cases h2 : ("DEVPATH=".data.isPrefixOf r) = true
    · simp [h1, h2]
    · by_cases h3 : ("SUBSYSTEM=".data.isPrefixOf r) = true
      · simp [h1, h2, h3]
      · by_cases h4 : ("FIRMWARE=".data.isPrefixOf r) = true
        · simp [h1, h2, h3, h4]
        · by_cases h5 : ("MAJOR=".data.isPrefixOf r) = true
          · simp [h1, h2, h3, h4, h5]
          · by_cases h6 : ("MINOR=".data.isPrefixOf r) = true
            · simp [h1, h2, h3, h4, h5, h6]
            · by_cases h7 : ("PARTN=".data.isPrefixOf r) = true
              · simp [h1, h2, h3, h4, h5, h6, h7]
              · by_cases h8 : ("PARTNAME=".data.isPrefixOf r) = true
                · simp [h1, h2, h3, h4, h5, h6, h7, h8]
                · by_cases h9 : ("DEVNAME=".data.isPrefixOf r) = true
                  · simp [h1, h2, h3, h4, h5, h6, h7, h8, h9]
                  · by_cases h10 : ("MODALIAS=".data.isPrefixOf r) = true
                    · simp [h1, h2, h3, h4, h5, h6, h7, h8, h9, h10]
                    · simp [h1, h2, h3, h4, h5, h6, h7, h8, h9, h10]

/-- The `path` field after one `parseRecord` step. -/
theorem parseRecord_path (u : Uevent) (r : CStr) :
    (parseRecord u r).path =
      if "DEVPATH=".data.isPrefixOf r then some (r.drop 8) else u.path := by
  unfold parseRecord
  by_cases h1 : ("ACTION=".data.isPrefixOf r) = true
  · simp [h1, tagExcl "DEVPATH=".data "ACTION=".data (by decide) (by decide) h1]
  · by_cases h2 : ("DEVPATH=".data.isPrefixOf r) = true
    · simp [h1, h2]
    · by_cases h3 : ("SUBSYSTEM=".data.isPrefixOf r) = true
      · simp [h1, h2, h3]
      · by_cases h4 : ("FIRMWARE=".data.isPrefixOf r) = true
        · simp [h1, h2, h3, h4]
        · by_cases h5 : ("MAJOR=".data.isPrefixOf r) = true
          · simp [h1, h2, h3, h4, h5]
          · by_cases h6 : ("MINOR=".data.isPrefixOf r) = true
            · simp [h1, h2, h3, h4, h5, h6]
            · by_cases h7 : ("PARTN=".data.isPrefixOf r) = true
              · simp [h1, h2, h3, h4, h5, h6, h7]
              · by_cases h8 : ("PARTNAME=".data.isPrefixOf r) = true
                · simp [h1, h2, h3, h4, h5, h6, h7, h8]
                · by_cases h9 : ("DEVNAME=".data.isPrefixOf r) = true
                  · simp [h1, h2, h3, h4, h5, h6, h7, h8, h9]
                  · by_cases h10 : ("MODALIAS=".data.isPrefixOf r) = true
                    · simp [h1, h2, h3, h4, h5, h6, h7, h8, h9, h10]
                    · simp [h1, h2, h3, h4, h5, h6, h7, h8, h9, h10]

/-- The `subsystem` field after one `parseRecord` step. -/
theorem parseRecord_subsystem (u : Uevent) (r : CStr) :
    (parseRecord u r).subsystem =
      if "SUBSYSTEM=".data.isPrefixOf r then some (r.drop 10) else u.subsystem := by
  unfold parseRecord
  by_cases h1 : ("ACTION=".data.isPrefixOf r) = true
  · simp [h1, tagExcl "SUBSYSTEM=".data "ACTION=".data (by decide) (by decide) h1]
  · by_cases h2 : ("DEVPATH=".data.isPrefixOf r) = true
    · simp [h1, h2, tagExcl "SUBSYSTEM=".data "DEVPATH=".data (by decide) (by decide) h2]
    · by_cases h3 : ("SUBSYSTEM=".data.isPrefixOf r) = true
      · simp [h1, h2, h3]
      · by_cases h4 : ("FIRMWARE=".data.isPrefixOf r) = true
        · simp [h1, h2, h3, h4]
        · by_cases h5 : ("MAJOR=".data.isPrefixOf r) = true
          · simp [h1, h2, h3, h4, h5]
          · by_cases h6 : ("MINOR=".data.isPrefixOf r) = true
            · simp [h1, h2, h3, h4, h5, h6]
            · by_cases h7 : ("PARTN=".data.isPrefixOf r) = true
              · simp [h1, h2, h3, h4, h5, h6, h7]
              · by_cases h8 : ("PARTNAME=".data.isPrefixOf r) = true
                · simp [h1, h2, h3, h4, h5, h6, h7, h8]
                · by_cases h9 : ("DEVNAME=".data.isPrefixOf r) = true
                  · simp [h1, h2, h3, h4, h5, h6, h7, h8, h9]
                  · by_cases h10 : ("MODALIAS=".data.isPrefixOf r) = true
                    · simp [h1, h2, h3, h4, h5, h6, h7, h8, h9, h10]
                    · simp [h1, h2, h3, h4, h5, h6, h7, h8, h9, h10]

/-- The `firmware` field after one `parseRecord` step. -/
theorem parseRecord_firmware (u : Uevent) (r : CStr) :
    (parseRecord u r).firmware =
      if "FIRMWARE=".data.isPrefixOf r then some (r.drop 9) else u.firmware := by
  unfold parseRecord
  by_cases h1 : ("ACTION=".data.isPrefixOf r) = true
  · simp [h1, tagExcl "FIRMWARE=".data "ACTION=".data (by decide) (by decide) h1]
  · by_cases h2 : ("DEVPATH=".data.isPrefixOf r) = true
    · simp [h1, h2, tagExcl "FIRMWARE=".data "DEVPATH=".data (by decide) (by decide) h2]
    · by_cases h3 : ("SUBSYSTEM=".data.isPrefixOf r) = true
      · simp [h1, h2, h3, tagExcl "FIRMWARE=".data "SUBSYSTEM=".data (by decide) (by decide) h3]
      · by_cases h4 : ("FIRMWARE=".data.isPrefixOf r) = true
        · simp [h1, h2, h3, h4]
        · by_cases h5 : ("MAJOR=".data.isPrefixOf r) = true
          · simp [h1, h2, h3, h4, h5]
          · by_cases h6 : ("MINOR=".data.isPrefixOf r) = true
            · simp [h1, h2, h3, h4, h5, h6]
            · by_cases h7 : ("PARTN=".data.isPrefixOf r) = true
              · simp [h1, h2, h3, h4, h5, h6, h7]
              · by_cases h8 : ("PARTNAME=".data.isPrefixOf r) = true
                · simp [h1, h2, h3, h4, h5, h6, h7, h8]
                · by_cases h9 : ("DEVNAME=".data.isPrefixOf r) = true
                  · simp [h1, h2, h3, h4, h5, h6, h7, h8, h9]
                  · by_cases h10 : ("MODALIAS=".data.isPrefixOf r) = true
                    · simp [h1, h2, h3, h4, h5, h6, h7, h8, h9, h10]
                    · simp [h1, h2, h3, h4, h5, h6, h7, h8, h9, h10]

/-- The `major` field after one `parseRecord` step. -/
theorem parseRecord_major (u : Uevent) (r : CStr) :
    (parseRecord u r).major =
      if "MAJOR=".data.isPrefixOf r then atoi (r.drop 6) else u.major := by
  unfold parseRecord
  by_cases h1 : ("ACTION=".data.isPrefixOf r) = true
  · simp [h1, tagExcl "MAJOR=".data "ACTION=".data (by decide) (by decide) h1]
  · by_cases h2 : ("DEVPATH=".data.isPrefixOf r) = true
    · simp [h1, h2, tagExcl "MAJOR=".data "DEVPATH=".data (by decide) (by decide) h2]
    · by_cases h3 : ("SUBSYSTEM=".data.isPrefixOf r) = true
      · simp [h1, h2, h3, tagExcl "MAJOR=".data "SUBSYSTEM=".data (by decide) (by decide) h3]
      · by_cases h4 : ("FIRMWARE=".data.isPrefixOf r) = true
        · simp [h1, h2, h3, h4, tagExcl "MAJOR=".data "FIRMWARE=".data (by decide) (by decide) h4]
        · by_cases h5 : ("MAJOR=".data.isPrefixOf r) = true
          · simp [h1, h2, h3, h4, h5]
          · by_cases h6 : ("MINOR=".data.isPrefixOf r) = true
            · simp [h1, h2, h3, h4, h5, h6]
            · by_cases h7 : ("PARTN=".data.isPrefixOf r) = true
              · simp [h1, h2, h3, h4, h5, h6, h7]
              · by_cases h8 : ("PARTNAME=".data.isPrefixOf r) = true
                · simp [h1, h2, h3, h4, h5, h6, h7, h8]
                · by_cases h9 : ("DEVNAME=".data.isPrefixOf r) = true
                  · simp [h1, h2, h3, h4, h5, h6, h7, h8, h9]
                  · by_cases h10 : ("MODALIAS=".data.isPrefixOf r) = true
                    · simp [h1, h2, h3, h4, h5, h6, h7, h8, h9, h10]
                    · simp [h1, h2, h3, h4, h5, h6, h7, h8, h9, h10]

/-- The `minor` field after one `parseRecord` step. -/
theorem parseRecord_minor (u : Uevent) (r : CStr) :
    (parseRecord u r).minor =
      if "MINOR=".data.isPrefixOf r then atoi (r.drop 6) else u.minor := by
  unfold parseRecord
  by_cases h1 : ("ACTION=".data.isPrefixOf r) = true
  · simp [h1, tagExcl "MINOR=".data "ACTION=".data (by decide) (by decide) h1]
  · by_cases h2 : ("DEVPATH=".data.isPrefixOf r) = true
    · simp [h1, h2, tagExcl "MINOR=".data "DEVPATH=".data (by decide) (by decide) h2]
    · by_cases h3 : ("SUBSYSTEM=".data.isPrefixOf r) = true
      · simp [h1, h2, h3, tagExcl "MINOR=".data "SUBSYSTEM=".data (by decide) (by decide) h3]
      · by_cases h4 : ("FIRMWARE=".data.isPrefixOf r) = true
        · simp [h1, h2, h3, h4, tagExcl "MINOR=".data "FIRMWARE=".data (by decide) (by decide) h4]
        · by_cases h5 : ("MAJOR=".data.isPrefixOf r) = true
          · simp [h1, h2, h3, h4, h5, tagExcl "MINOR=".data "MAJOR=".data (by decide) (by decide) h5]
          · by_cases h6 : ("MINOR=".data.isPrefixOf r) = true
            · simp [h1, h2, h3, h4, h5, h6]
            · by_cases h7 : ("PARTN=".data.isPrefixOf r) = true
              · simp [h1, h2, h3, h4, h5, h6, h7]
              · by_cases h8 : ("PARTNAME=".data.isPrefixOf r) = true
                · simp [h1, h2, h3, h4, h5, h6, h7, h8]
                · by_cases h9 : ("DEVNAME=".data.isPrefixOf r) = true
                  · simp [h1, h2, h3, h4, h5, h6, h7, h8, h9]
                  · by_cases h10 : ("MODALIAS=".data.isPrefixOf r) = true
                    · simp [h1, h2, h3, h4, h5, h6, h7, h8, h9, h10]
                    · simp [h1, h2, h3, h4, h5, h6, h7, h8, h9, h10]

/-- The `partition_num` field after one `parseRecord` step. -/
theorem parseRecord_partition_num (u : Uevent) (r : CStr) :
    (parseRecord u r).partition_num =
      if "PARTN=".data.isPrefixOf r then atoi (r.drop 6) else u.partition_num := by
  unfold parseRecord
  by_cases h1 : ("ACTION=".data.isPrefixOf r) = true
  · simp [h1, tagExcl "PARTN=".data "ACTION=".data (by decide) (by decide) h1]
  · by_cases h2 : ("DEVPATH=".data.isPrefixOf r) = true
    · simp [h1, h2, tagExcl "PARTN=".data "DEVPATH=".data (by decide) (by decide) h2]
    · by_cases h3 : ("SUBSYSTEM=".data.isPrefixOf r) = true
      · simp [h1, h2, h3, tagExcl "PARTN=".data "SUBSYSTEM=".data (by decide) (by decide) h3]
      · by_cases h4 : ("FIRMWARE=".data.isPrefixOf r) = true
        · simp [h1, h2, h3, h4, tagExcl "PARTN=".data "FIRMWARE=".data (by decide) (by decide) h4]
        · by_cases h5 : ("MAJOR=".data.isPrefixOf r) = true
          · simp [h1, h2, h3, h4, h5, tagExcl "PARTN=".data "MAJOR=".data (by decide) (by decide) h5]
          · by_cases h6 : ("MINOR=".data.isPrefixOf r) = true
            · simp [h1, h2, h3, h4, h5, h6, tagExcl "PARTN=".data "MINOR=".data (by decide) (by decide) h6]
            · by_cases h7 : ("PARTN=".data.isPrefixOf r) = true
              · simp [h1, h2, h3, h4, h5, h6, h7]
              · by_cases h8 : ("PARTNAME=".data.isPrefixOf r) = true
                · simp [h1, h2, h3, h4, h5, h6, h7, h8]
                · by_cases h9 : ("DEVNAME=".data.isPrefixOf r) = true
                  · simp [h1, h2, h3, h4, h5, h6, h7, h8, h9]
                  · by_cases h10 : ("MODALIAS=".data.isPrefixOf r) = true
                    · simp [h1, h2, h3, h4, h5, h6, h7, h8, h9, h10]
                    · simp [h1, h2, h3, h4, h5, h6, h7, h8, h9, h10]

/-- The `partition_name` field after one `parseRecord` step. -/
theorem parseRecord_partition_name (u : Uevent) (r : CStr) :
    (parseRecord u r).partition_name =
      if "PARTNAME=".data.isPrefixOf r then some (r.drop 9) else u.partition_name := by
  unfold parseRecord
  by_cases h1 : ("ACTION=".data.isPrefixOf r) = true
  · simp [h1, tagExcl "PARTNAME=".data "ACTION=".data (by decide) (by decide) h1]
  · by_cases h2 : ("DEVPATH=".data.isPrefixOf r) = true
    · simp [h1, h2, tagExcl "PARTNAME=".data "DEVPATH=".data (by decide) (by decide) h2]
    · by_cases h3 : ("SUBSYSTEM=".data.isPrefixOf r) = true
      · simp [h1, h2, h3, tagExcl "PARTNAME=".data "SUBSYSTEM=".data (by decide) (by decide) h3]
      · by_cases h4 : ("FIRMWARE=".data.isPrefixOf r) = true
        · simp [h1, h2, h3, h4, tagExcl "PARTNAME=".data "FIRMWARE=".data (by decide) (by decide) h4]
        · by_cases h5 : ("MAJOR=".data.isPrefixOf r) = true
          · simp [h1, h2, h3, h4, h5, tagExcl "PARTNAME=".data "MAJOR=".data (by decide) (by decide) h5]
          · by_cases h6 : ("MINOR=".data.isPrefixOf r) = true
            · simp [h1, h2, h3, h4, h5, h6, tagExcl "PARTNAME=".data "MINOR=".data (by decide) (by decide) h6]
            · by_cases h7 : ("PARTN=".data.isPrefixOf r) = true
              · simp [h1, h2, h3, h4, h5, h6, h7, tagExcl "PARTNAME=".data "PARTN=".data (by decide) (by decide) h7]
              · by_cases h8 : ("PARTNAME=".data.isPrefixOf r) = true
                · simp [h1, h2, h3, h4, h5, h6, h7, h8]
                · by_cases h9 : ("DEVNAME=".data.isPrefixOf r) = true
                  · simp [h1, h2, h3, h4, h5, h6, h7, h8, h9]
                  · by_cases h10 : ("MODALIAS=".data.isPrefixOf r) = true
                    · simp [h1, h2, h3, h4, h5, h6, h7, h8, h9, h10]
                    · simp [h1, h2, h3, h4, h5, h6, h7, h8, h9, h10]

/-- The `device_name` field after one `parseRecord` step. -/
theorem parseRecord_device_name (u : Uevent) (r : CStr) :
    (parseRecord u r).device_name =
      if "DEVNAME=".data.isPrefixOf r then some (r.drop 8) else u.device_name := by
  unfold parseRecord
  by_cases h1 : ("ACTION=".data.isPrefixOf r) = true
  · simp [h1, tagExcl "DEVNAME=".data "ACTION=".data (by decide) (by decide) h1]
  · by_cases h2 : ("DEVPATH=".data.isPrefixOf r) = true
    · simp [h1, h2, tagExcl "DEVNAME=".data "DEVPATH=".data (by decide) (by decide) h2]
    · by_cases h3 : ("SUBSYSTEM=".data.isPrefixOf r) = true
      · simp [h1, h2, h3, tagExcl "DEVNAME=".data "SUBSYSTEM=".data (by decide) (by decide) h3]
      · by_cases h4 : ("FIRMWARE=".data.isPrefixOf r) = true
        · simp [h1, h2, h3, h4, tagExcl "DEVNAME=".data "FIRMWARE=".data (by decide) (by decide) h4]
        · by_cases h5 : ("MAJOR=".data.isPrefixOf r) = true
          · simp [h1, h2, h3, h4, h5, tagExcl "DEVNAME=".data "MAJOR=".data (by decide) (by decide) h5]
          · by_cases h6 : ("MINOR=".data.isPrefixOf r) = true
            · simp [h1, h2, h3, h4, h5, h6, tagExcl "DEVNAME=".data "MINOR=".data (by decide) (by decide) h6]
            · by_cases h7 : ("PARTN=".data.isPrefixOf r) = true
              · simp [h1, h2, h3, h4, h5, h6, h7, tagExcl "DEVNAME=".data "PARTN=".data (by decide) (by decide) h7]
              · by_cases h8 : ("PARTNAME=".data.isPrefixOf r) = true
                · simp [h1, h2, h3, h4, h5, h6, h7, h8, tagExcl "DEVNAME=".data "PARTNAME=".data (by decide) (by decide) h8]
                · by_cases h9 : ("DEVNAME=".data.isPrefixOf r) = true
                  · simp [h1, h2, h3, h4, h5, h6, h7, h8, h9]
                  · by_cases h10 : ("MODALIAS=".data.isPrefixOf r) = true
                    · simp [h1, h2, h3, h4, h5, h6, h7, h8, h9, h10]
                    · simp [h1, h2, h3, h4, h5, h6, h7, h8, h9, h10]

/-- The `modalias` field after one `parseRecord` step. -/
theorem parseRecord_modalias (u : Uevent) (r : CStr) :
    (parseRecord u r).modalias =
      if "MODALIAS=".data.isPrefixOf r then some (r.drop 9) else u.modalias := by
  unfold parseRecord
  by_cases h1 : ("ACTION=".data.isPrefixOf r) = true
  · simp [h1, tagExcl "MODALIAS=".data "ACTION=".data (by decide) (by decide) h1]
  · by_cases h2 : ("DEVPATH=".data.isPrefixOf r) = true
    · simp [h1, h2, tagExcl "MODALIAS=".data "DEVPATH=".data (by decide) (by decide) h2]
    · by_cases h3 : ("SUBSYSTEM=".data.isPrefixOf r) = true
      · simp [h1, h2, h3, tagExcl "MODALIAS=".data "SUBSYSTEM=".data (by decide) (by decide) h3]
      · by_cases h4 : ("FIRMWARE=".data.isPrefixOf r) = true
        · simp [h1, h2, h3, h4, tagExcl "MODALIAS=".data "FIRMWARE=".data (by decide) (by decide) h4]
        · by_cases h5 : ("MAJOR=".data.isPrefixOf r) = true
          · simp [h1, h2, h3, h4, h5, tagExcl "MODALIAS=".data "MAJOR=".data (by decide) (by decide) h5]
          · by_cases h6 : ("MINOR=".data.isPrefixOf r) = true
            · simp [h1, h2, h3, h4, h5, h6, tagExcl "MODALIAS=".data "MINOR=".data (by decide) (by decide) h6]
            · by_cases h7 : ("PARTN=".data.isPrefixOf r) = true
              · simp [h1, h2, h3, h4, h5, h6, h7, tagExcl "MODALIAS=".data "PARTN=".data (by decide) (by decide) h7]
              · by_cases h8 : ("PARTNAME=".data.isPrefixOf r) = true
                · simp [h1, h2, h3, h4, h5, h6, h7, h8, tagExcl "MODALIAS=".data "PARTNAME=".data (by decide) (by decide) h8]
                · by_cases h9 : ("DEVNAME=".data.isPrefixOf r) = true
                  · simp [h1, h2, h3, h4, h5, h6, h7, h8, h9, tagExcl "MODALIAS=".data "DEVNAME=".data (by decide) (by decide) h9]
                  · by_cases h10 : ("MODALIAS=".data.isPrefixOf r) = true
                    · simp [h1, h2, h3, h4, h5, h6, h7, h8, h9, h10]
                    · simp [h1, h2, h3, h4, h5, h6, h7, h8, h9, h10]


/-- Folding `parseRecord` updates a field to the last tagged value seen. -/
theorem parse_foldl_field {α : Type} (g : Uevent → α) (tag : CStr) (val : CStr → α)
    (hrec : ∀ u r, g (parseRecord u r) =
      if tag.isPrefixOf r then val (r.drop tag.length) else g u) :
    ∀ (recs : List CStr) (u0 : Uevent),
      g (recs.foldl parseRecord u0) = ((lastTagValue tag recs).map val).getD (g u0) := by
  intro recs
  induction recs with
  | nil => intro u0; simp [lastTagValue]
  | cons r rest ih =>
    intro u0
    simp only [List.foldl_cons]
    rw [ih]
    cases hl : lastTagValue tag rest with
    | some v => simp [lastTagValue, hl]
    | none =>
      simp only [lastTagValue, hl]
      rw [hrec]
      by_cases ht : tag.isPrefixOf r = true
      · simp [ht]
      · simp [ht]

/-- `Option.map some` then `getD (some x)` is `some` of `getD x`. -/
theorem map_some_getD {α : Type} (o : Option α) (x : α) :
    (o.map (fun v => some v)).getD (some x) = some (o.getD x) := by
  cases o <;> rfl

/-- `Option.map some` then `getD none` is the option itself. -/
theorem map_some_getD_none {α : Type} (o : Option α) :
    (o.map (fun v => some v)).getD none = o := by
  cases o <;> rfl

/-- `lastTagValue` is `none` exactly when no record carries the tag. -/
theorem lastTagValue_eq_none_iff (tag : CStr) (recs : List CStr) :
    lastTagValue tag recs = none ↔ ∀ r ∈ recs, tag.isPrefixOf r = false := by
  induction recs with
  | nil => simp [lastTagValue]
  | cons r rest ih =>
    constructor
    · intro h
      cases hl : lastTagValue tag rest with
      | some v => simp [lastTagValue, hl] at h
      | none =>
        simp only [lastTagValue, hl] at h
        by_cases ht : tag.isPrefixOf r = true
        · rw [if_pos ht] at h
          exact Option.noConfusion h
        · rw [Bool.not_eq_true] at ht
          intro x hx
          rcases List.mem_cons.mp hx with hx' | hx'
          · rw [hx']
            exact ht
          · exact ih.mp hl x hx'
    · intro h
      simp only [lastTagValue]
      have hrest : lastTagValue tag rest = none :=
        ih.mpr (fun x hx => h x (List.mem_cons_of_mem _ hx))
      rw [hrest]
      have ht : tag.isPrefixOf r = false := h r (List.mem_cons_self _ _)
      simp [ht]

/-- C9: after `parse_event`, the four string fields are never NULL and hold
the last tagged value (empty when the tag is absent); the three optional
string fields are NULL exactly when their tag is absent, and otherwise hold
the last tagged value; the three numeric fields are -1 when their tag is
absent and otherwise the `atoi` of the last tagged value. -/
theorem c9_parse_event_fields (msg : List CStr) :
    (parse_event msg).action =
      some ((lastTagValue "ACTION=".data (processedRecords msg)).getD []) ∧
    (parse_event msg).path =
      some ((lastTagValue "DEVPATH=".data (processedRecords msg)).getD []) ∧
    (parse_event msg).subsystem =
      some ((lastTagValue "SUBSYSTEM=".data (processedRecords msg)).getD []) ∧
    (parse_event msg).firmware =
      some ((lastTagValue "FIRMWARE=".data (processedRecords msg)).getD []) ∧
    (parse_event msg).partition_name =
      lastTagValue "PARTNAME=".data (processedRecords msg) ∧
    ((parse_event msg).partition_name = none ↔
      ∀ r ∈ processedRecords msg, "PARTNAME=".data.isPrefixOf r = false) ∧
    (parse_event msg).device_name =
      lastTagValue "DEVNAME=".data (processedRecords msg) ∧
    ((parse_event msg).device_name = none ↔
      ∀ r ∈ processedRecords msg, "DEVNAME=".data.isPrefixOf r = false) ∧
    (parse_event msg).modalias =
      lastTagValue "MODALIAS=".data (processedRecords msg) ∧
    ((parse_event msg).modalias = none ↔
      ∀ r ∈ processedRecords msg, "MODALIAS=".data.isPrefixOf r = false) ∧
    (parse_event msg).major =
      ((lastTagValue "MAJOR=".data (processedRecords msg)).map atoi).getD (-1) ∧
    (parse_event msg).minor =
      ((lastTagValue "MINOR=".data (processedRecords msg)).map atoi).getD (-1) ∧
    (parse_event msg).partition_num =
      ((lastTagValue "PARTN=".data (processedRecords msg)).map atoi).getD (-1) := by
  have hA := parse_foldl_field (fun u => u.action) "ACTION=".data (fun v => some v)
    (fun u r => parseRecord_action u r) (processedRecords msg) uevInit
  have hB := parse_foldl_field (fun u => u.path) "DEVPATH=".data (fun v => some v)
    (fun u r => parseRecord_path u r) (processedRecords msg) uevInit
  have hC := parse_foldl_field (fun u => u.subsystem) "SUBSYSTEM=".data (fun v => some v)
    (fun u r => parseRecord_subsystem u r) (processedRecords msg) uevInit
  have hD := parse_foldl_field (fun u => u.firmware) "FIRMWARE=".data (fun v => some v)
    (fun u r => parseRecord_firmware u r) (processedRecords msg) uevInit
  have hE := parse_foldl_field (fun u => u.major) "MAJOR=".data atoi
    (fun u r => parseRecord_major u r) (processedRecords msg) uevInit
  have hF := parse_foldl_field (fun u => u.minor) "MINOR=".data atoi
    (fun u r => parseRecord_minor u r) (processedRecords msg) uevInit
  have hG := parse_foldl_field (fun u => u.partition_num) "PARTN=".data atoi
    (fun u r => parseRecord_partition_num u r) (processedRecords msg) uevInit
  have hH := parse_foldl_field (fun u => u.partition_name) "PARTNAME=".data (fun v => some v)
    (fun u r => parseRecord_partition_name u r) (processedRecords msg) uevInit
  have hI := parse_foldl_field (fun u => u.device_name) "DEVNAME=".data (fun v => some v)
    (fun u r => parseRecord_device_name u r) (processedRecords msg) uevInit
  have hJ := parse_foldl_field (fun u => u.modalias) "MODALIAS=".data (fun v => some v)
    (fun u r => parseRecord_modalias u r) (processedRecords msg) uevInit
  have hHn : (parse_event msg).partition_name =
      lastTagValue "PARTNAME=".data (processedRecords msg) :=
    (hH.trans (map_some_getD_none _))
  have hIn : (parse_event msg).device_name =
      lastTagValue "DEVNAME=".data (processedRecords msg) :=
    (hI.trans (map_some_getD_none _))
  have hJn : (parse_event msg).modalias =
      lastTagValue "MODALIAS=".data (processedRecords msg) :=
    (hJ.trans (map_some_getD_none _))
  refine ⟨hA.trans (map_some_getD _ _), hB.trans (map_some_getD _ _),
    hC.trans (map_some_getD _ _), hD.trans (map_some_getD _ _),
    hHn, ?_, hIn, ?_, hJn, ?_, hE, hF, hG⟩
  · rw [hHn]
    exact lastTagValue_eq_none_iff _ _
  · rw [hIn]
    exact lastTagValue_eq_none_iff _ _
  · rw [hJn]
    exact lastTagValue_eq_none_iff _ _

end Devices
